import Mathlib

/-!
Verification of the escrow phase state machine and swap-lifecycle scripts of
the 1inch-fusion-stellar repository.

The JavaScript sources are shallowly embedded:
* `determineEscrowPhase` and `formatTimeRemaining` from
  `src/jsclient/query-escrow-events.js` (duplicated verbatim in
  `src/jsclient/query-escrow-enhanced.js` and, modulo the `allowedActions`
  field, in `src/unnamed/part_000`);
* the timelock-schedule literals from `src/jsclient/order-init.js` and
  `src/unnamed/part_001`;
* the funding step (Step 3) and the deployment-verification step (Step 4)
  of `src/unnamed/part_001`, expressed as pure functions over an explicit
  description of the chain outcomes (transaction send results, contract
  reads);
* the event-collection core of `queryContractEvents` from
  `src/jsclient/query-escrow-events.js`.

JavaScript numbers are modelled as `Int` (all values involved are integer
seconds or integer wei).  `Math.floor(a / b)` is `Int.fdiv a b` and the JS
remainder `a % b` is `Int.tmod a b`.  A JS value that is either a number or
a string (the `timeRemaining` field) is the sum type `JsVal`.  ISO date
rendering of `nextPhaseTime` is abstracted to the underlying epoch seconds
(`Option Int`, `none` for the literal string N/A).
-/

/-- The `PHASES` constant of `query-escrow-events.js`. -/
inductive Phase where
  | DEPLOYED
  | FINALITY
  | PRIVATE_WITHDRAWAL
  | PUBLIC_WITHDRAWAL
  | PRIVATE_CANCELLATION
  | PUBLIC_CANCELLATION
  | EXPIRED
deriving DecidableEq, Repr

/-- Position of a phase in the time order
`FINALITY < PRIVATE_WITHDRAWAL < PUBLIC_WITHDRAWAL < PRIVATE_CANCELLATION <
PUBLIC_CANCELLATION` (with the `DEPLOYED` and `EXPIRED` labels at the two
ends, matching the order of the `PHASES` constant). -/
def Phase.idx : Phase → Nat
  | .DEPLOYED => 0
  | .FINALITY => 1
  | .PRIVATE_WITHDRAWAL => 2
  | .PUBLIC_WITHDRAWAL => 3
  | .PRIVATE_CANCELLATION => 4
  | .PUBLIC_CANCELLATION => 5
  | .EXPIRED => 6

/-- A JavaScript value that is either a number or a string, as stored in the
`timeRemaining` field of the phase info objects. -/
inductive JsVal where
  | num (n : Int)
  | str (s : String)
deriving DecidableEq, Repr

/-- The `timelocks` objects built by the scripts
(`order-init.js` lines 84–92 and `part_001` lines 307–315): seven integer
fields, four for the source chain and three for the destination chain. -/
structure Timelocks where
  srcWithdrawal : Int
  srcPublicWithdrawal : Int
  srcCancellation : Int
  srcPublicCancellation : Int
  dstWithdrawal : Int
  dstPublicWithdrawal : Int
  dstCancellation : Int
deriving DecidableEq, Repr

/-- Plain-record construction of a timelocks object from raw integers,
exactly as the scripts write the object literal: no check of any kind runs. -/
def mkTimelocks (sw spw sc spc dw dpw dc : Int) : Timelocks :=
  { srcWithdrawal := sw
    srcPublicWithdrawal := spw
    srcCancellation := sc
    srcPublicCancellation := spc
    dstWithdrawal := dw
    dstPublicWithdrawal := dpw
    dstCancellation := dc }

/-- The source-side ordering invariant `t0 ≤ t1 ≤ t2 ≤ t3` demanded by the
spec for a schedule to be valid. -/
def srcOrdered (tl : Timelocks) : Prop :=
  tl.srcWithdrawal ≤ tl.srcPublicWithdrawal ∧
  tl.srcPublicWithdrawal ≤ tl.srcCancellation ∧
  tl.srcCancellation ≤ tl.srcPublicCancellation

instance (tl : Timelocks) : Decidable (srcOrdered tl) := by
  unfold srcOrdered; infer_instance

/-- The `escrowImmutables` object of `part_001` lines 299–316. -/
structure EscrowImmutables where
  orderHash : String
  hashlock : String
  maker : String
  taker : String
  token : String
  amount : Int
  safetyDeposit : Int
  timelocks : Timelocks
deriving DecidableEq, Repr

/-- Immutables with the given timelocks and defaulted identity fields, for
phase reasoning (`determineEscrowPhase` reads only `immutables.timelocks`). -/
def mkImm (tl : Timelocks) : EscrowImmutables :=
  { orderHash := ""
    hashlock := ""
    maker := ""
    taker := ""
    token := ""
    amount := 0
    safetyDeposit := 0
    timelocks := tl }

/-- The phase info object returned by `determineEscrowPhase`.
`nextPhaseTime` keeps the epoch seconds that the script renders as an ISO
date (`none` for the terminal branch literal N/A). -/
structure PhaseInfo where
  phase : Phase
  description : String
  timeRemaining : JsVal
  nextPhase : Phase
  nextPhaseTime : Option Int
  allowedActions : List String
deriving DecidableEq, Repr

/-- `determineEscrowPhase(immutables, currentTime)` from
`src/jsclient/query-escrow-events.js` lines 173–232: a cascade of
strictly-less-than comparisons of the current time against the four
source-side timelocks, each branch bundling the phase tag, description,
time remaining, next phase and allowed actions. -/
def determineEscrowPhase (immutables : EscrowImmutables) (currentTime : Int) :
    PhaseInfo :=
  if currentTime < immutables.timelocks.srcWithdrawal then
    { phase := .FINALITY
      description := "Contract is in finality period - no actions allowed"
      timeRemaining := .num (immutables.timelocks.srcWithdrawal - currentTime)
      nextPhase := .PRIVATE_WITHDRAWAL
      nextPhaseTime := some immutables.timelocks.srcWithdrawal
      allowedActions := ["None - waiting for finality"] }
  else if currentTime < immutables.timelocks.srcPublicWithdrawal then
    { phase := .PRIVATE_WITHDRAWAL
      description := "Private withdrawal period - maker can withdraw with secret"
      timeRemaining := .num (immutables.timelocks.srcPublicWithdrawal - currentTime)
      nextPhase := .PUBLIC_WITHDRAWAL
      nextPhaseTime := some immutables.timelocks.srcPublicWithdrawal
      allowedActions := ["Maker withdraw with secret", "Taker withdraw with secret"] }
  else if currentTime < immutables.timelocks.srcCancellation then
    { phase := .PUBLIC_WITHDRAWAL
      description := "Public withdrawal period - anyone can withdraw with secret"
      timeRemaining := .num (immutables.timelocks.srcCancellation - currentTime)
      nextPhase := .PRIVATE_CANCELLATION
      nextPhaseTime := some immutables.timelocks.srcCancellation
      allowedActions := ["Anyone withdraw with secret"] }
  else if currentTime < immutables.timelocks.srcPublicCancellation then
    { phase := .PRIVATE_CANCELLATION
      description := "Private cancellation period - maker can cancel"
      timeRemaining := .num (immutables.timelocks.srcPublicCancellation - currentTime)
      nextPhase := .PUBLIC_CANCELLATION
      nextPhaseTime := some immutables.timelocks.srcPublicCancellation
      allowedActions := ["Maker cancel", "Anyone withdraw with secret"] }
  else
    { phase := .PUBLIC_CANCELLATION
      description := "Public cancellation period - anyone can cancel"
      timeRemaining := .str "No time limit"
      nextPhase := .EXPIRED
      nextPhaseTime := none
      allowedActions := ["Anyone cancel", "Anyone withdraw with secret"] }

/-- The relative-schedule view of the phase computation: the scripts attach a
relative schedule `t0 ≤ t1 ≤ t2 ≤ t3` at a deployment epoch by building the
timelocks as `epoch + offset` (`part_001` lines 307–315 with
`currentTime + 60`, `+ 120`, `+ 300`, `+ 600`), then call
`determineEscrowPhase`. -/
def computePhase (t0 t1 t2 t3 epoch now : Int) : PhaseInfo :=
  determineEscrowPhase
    (mkImm (mkTimelocks (epoch + t0) (epoch + t1) (epoch + t2) (epoch + t3)
      (epoch + t0) (epoch + t1) (epoch + t2)))
    now

/-- The four components computed by `formatTimeRemaining` for a numeric
argument (`query-escrow-events.js` lines 237–240):
`Math.floor(seconds / 86400)`, `Math.floor((seconds % 86400) / 3600)`,
`Math.floor((seconds % 3600) / 60)` and `seconds % 60`. -/
def timeComponents (seconds : Int) : Int × Int × Int × Int :=
  (Int.fdiv seconds 86400,
   Int.fdiv (Int.tmod seconds 86400) 3600,
   Int.fdiv (Int.tmod seconds 3600) 60,
   Int.tmod seconds 60)

/-- `formatTimeRemaining(seconds)` from `query-escrow-events.js` lines
234–251: a string argument is returned unchanged (the `typeof` guard);
a numeric argument is decomposed with `timeComponents` and rendered with
the largest nonzero unit leading. -/
def formatTimeRemaining : JsVal → String
  | .str s => s
  | .num seconds =>
    let c := timeComponents seconds
    let days := c.1
    let hours := c.2.1
    let minutes := c.2.2.1
    let secs := c.2.2.2
    if days > 0 then
      toString days ++ "d " ++ toString hours ++ "h " ++ toString minutes ++
        "m " ++ toString secs ++ "s"
    else if hours > 0 then
      toString hours ++ "h " ++ toString minutes ++ "m " ++ toString secs ++ "s"
    else if minutes > 0 then
      toString minutes ++ "m " ++ toString secs ++ "s"
    else
      toString secs ++ "s"

/-- The relative timelocks literal of the order object in
`src/jsclient/order-init.js` lines 84–92 (string-encoded BigInts in the
source; the numeric values are kept). -/
def orderTimeLocks : Timelocks :=
  mkTimelocks 10 120 121 122 10 100 101

/-- The timelocks of `escrowImmutables` in `src/unnamed/part_001` lines
307–315: absolute boundaries at fixed offsets from the current time. -/
def deploymentTimelocks (currentTime : Int) : Timelocks :=
  mkTimelocks (currentTime + 60) (currentTime + 120) (currentTime + 300)
    (currentTime + 600) (currentTime + 60) (currentTime + 120)
    (currentTime + 300)

/-- `totalFundingAmount` from `part_001` line 395:
`escrowImmutables.amount + escrowImmutables.safetyDeposit`. -/
def totalFundingAmount (imm : EscrowImmutables) : Int :=
  imm.amount + imm.safetyDeposit

/-- Outcome of one `sendTransaction` attempt as observed by the script:
the receipt came back with status 1, the receipt came back with a status
other than 1, or the send/wait threw with a message. -/
inductive TxOutcome where
  | success
  | reverted
  | threw (msg : String)
deriving DecidableEq, Repr

/-- The funding fields the script leaves on `escrowDeployment` after Step 3,
together with how many funding transactions were sent and the gas limit of
each one sent. -/
structure FundingResult where
  fundingStatus : String
  fundingError : Option String
  attempts : Nat
  gasLimits : List Int
deriving DecidableEq, Repr

/-- Step 3 of `part_001` (lines 412–477), funding the escrow, as a pure
function of the outcomes of the two possible transaction sends.
The first send uses `gasLimit` 1000000.  Only when that send THROWS does the
script retry, with `gasLimit` 2000000; a first transaction that is mined but
reverted (receipt status ≠ 1) goes straight to `fundingStatus = 'failed'`
with the message Transaction reverted and no retry.  On a retry that
succeeds, the stale first error message is left in `fundingError` (the
script never clears it); on a retry that is mined but reverted the error is
the fixed string Both funding attempts failed; on a retry that throws, the
error carries both messages. -/
def fundEscrow (first retry : TxOutcome) : FundingResult :=
  match first with
  | .success =>
    { fundingStatus := "completed", fundingError := none
      attempts := 1, gasLimits := [1000000] }
  | .reverted =>
    { fundingStatus := "failed", fundingError := some "Transaction reverted"
      attempts := 1, gasLimits := [1000000] }
  | .threw msg1 =>
    match retry with
    | .success =>
      { fundingStatus := "completed", fundingError := some msg1
        attempts := 2, gasLimits := [1000000, 2000000] }
    | .reverted =>
      { fundingStatus := "failed"
        fundingError := some "Both funding attempts failed"
        attempts := 2, gasLimits := [1000000, 2000000] }
    | .threw msg2 =>
      { fundingStatus := "failed"
        fundingError := some ("Both attempts failed: " ++ msg1 ++ ", " ++ msg2)
        attempts := 2, gasLimits := [1000000, 2000000] }

/-- Outcome of a read call against the chain (contract getter or balance). -/
inductive ReadOutcome (α : Type) where
  | ok (v : α)
  | err (msg : String)
deriving DecidableEq, Repr

/-- The verification fields the script leaves on `escrowDeployment` after
Step 4, plus the result of the balance comparison the script logs
(`none` when the comparison is skipped because funding is not completed). -/
structure VerificationResult where
  verificationStatus : String
  verificationError : Option String
  balanceAtLeastExpected : Option Bool
deriving DecidableEq, Repr

/-- Step 4 of `part_001` (lines 481–536), verifying the deployment, as a
pure function of the funding status and the outcomes of the three chain
reads.  A throwing `RESCUE_DELAY` or `getBalance` read is caught by the
outer handler and sets `verificationStatus = 'failed'`.  When the reads
succeed, the script compares `contractBalance >= totalFundingAmount` only
if `fundingStatus === 'completed'`, and only LOGS the result: the
comparison never influences the status.  `verificationStatus` becomes
`'verified'` exactly when the final `FACTORY()` read succeeds. -/
def verifyDeployment (fundingStatus : String) (total : Int)
    (rescueDelayRead : ReadOutcome Int) (balanceRead : ReadOutcome Int)
    (factoryRead : ReadOutcome String) : VerificationResult :=
  match rescueDelayRead with
  | .err m =>
    { verificationStatus := "failed", verificationError := some m
      balanceAtLeastExpected := none }
  | .ok _ =>
    match balanceRead with
    | .err m =>
      { verificationStatus := "failed", verificationError := some m
        balanceAtLeastExpected := none }
    | .ok contractBalance =>
      let balCheck : Option Bool :=
        if fundingStatus = "completed" then some (contractBalance ≥ total)
        else none
      match factoryRead with
      | .ok _ =>
        { verificationStatus := "verified", verificationError := none
          balanceAtLeastExpected := balCheck }
      | .err m =>
        { verificationStatus := "failed", verificationError := some m
          balanceAtLeastExpected := balCheck }

/-- A withdrawal event as collected by `queryContractEvents`
(lines 91–100): the revealed secret plus block and transaction data. -/
structure WithdrawalRecord where
  secret : String
  blockNumber : Int
  timestamp : Int
  transactionHash : String
deriving DecidableEq, Repr

/-- A cancellation event as collected by `queryContractEvents`
(lines 102–111). -/
structure CancellationRecord where
  blockNumber : Int
  timestamp : Int
  transactionHash : String
deriving DecidableEq, Repr

/-- A rescue event as collected by `queryContractEvents` (lines 113–124). -/
structure RescueRecord where
  token : String
  amount : Int
  blockNumber : Int
  timestamp : Int
  transactionHash : String
deriving DecidableEq, Repr

/-- A raw withdrawal log as returned by the provider filter, before the
block-timestamp lookup. -/
structure RawWithdrawal where
  secret : String
  blockNumber : Int
  transactionHash : String
deriving DecidableEq, Repr

/-- A raw cancellation log as returned by the provider filter. -/
structure RawCancellation where
  blockNumber : Int
  transactionHash : String
deriving DecidableEq, Repr

/-- A raw rescue log as returned by the provider filter. -/
structure RawRescue where
  token : String
  amount : Int
  blockNumber : Int
  transactionHash : String
deriving DecidableEq, Repr

/-- The value returned by `queryContractEvents` (lines 126–131): the three
event lists side by side and their total count.  There is no other field:
in particular the type has no conflict marker and no terminal-state
variant. -/
structure EventsResult where
  withdrawals : List WithdrawalRecord
  cancellations : List CancellationRecord
  rescues : List RescueRecord
  totalEvents : Nat
deriving DecidableEq, Repr

/-- The pure core of `queryContractEvents` from
`src/jsclient/query-escrow-events.js` lines 68–137: given the three
filtered log lists and the chain's block-number-to-timestamp map, each log
is decorated with its block timestamp and the three lists are returned
together with the sum of their lengths.  No state is read or written, no
event is dropped, and no conflict between withdrawal and cancellation
events is detected. -/
def queryContractEvents (ws : List RawWithdrawal) (cs : List RawCancellation)
    (rs : List RawRescue) (blockTimestamp : Int → Int) : EventsResult :=
  { withdrawals := ws.map fun e =>
      { secret := e.secret, blockNumber := e.blockNumber
        timestamp := blockTimestamp e.blockNumber
        transactionHash := e.transactionHash }
    cancellations := cs.map fun e =>
      { blockNumber := e.blockNumber
        timestamp := blockTimestamp e.blockNumber
        transactionHash := e.transactionHash }
    rescues := rs.map fun e =>
      { token := e.token, amount := e.amount, blockNumber := e.blockNumber
        timestamp := blockTimestamp e.blockNumber
        transactionHash := e.transactionHash }
    totalEvents := ws.length + cs.length + rs.length }

/-- The five strings that name a real (fund-moving) escrow action in the
`allowedActions` lists of `determineEscrowPhase`. -/
def escrowActionStrings : List String :=
  ["Maker withdraw with secret", "Taker withdraw with secret",
   "Anyone withdraw with secret", "Maker cancel", "Anyone cancel"]

/-- Concrete escrow immutables mirroring `part_001` with its default
environment values: 0.002 ETH making amount and 0.001 ETH safety deposit in
wei, and the deployment timelocks anchored at epoch 1000. -/
def sampleImmutables : EscrowImmutables :=
  { orderHash := "0xorderhash"
    hashlock := "0xhashlock"
    maker := "0xmaker"
    taker := "0xtaker"
    token := "0x0000000000000000000000000000000000000000"
    amount := 2000000000000000
    safetyDeposit := 1000000000000000
    timelocks := deploymentTimelocks 1000 }

/-- C1: for every schedule with ordered source boundaries and every current
time, the allowed-actions list returned by `determineEscrowPhase` is
exactly the one prescribed for the computed phase.  The FINALITY list holds
only the no-action sentinel, which is none of the real escrow actions, so
it denotes the empty action set. -/
theorem allowed_actions_match_phase (imm : EscrowImmutables) (now : Int)
    (_hord : srcOrdered imm.timelocks) :
    ((determineEscrowPhase imm now).phase = .FINALITY →
      (determineEscrowPhase imm now).allowedActions =
        ["None - waiting for finality"] ∧
      ∀ a ∈ (determineEscrowPhase imm now).allowedActions,
        a ∉ escrowActionStrings) ∧
    ((determineEscrowPhase imm now).phase = .PRIVATE_WITHDRAWAL →
      (determineEscrowPhase imm now).allowedActions =
        ["Maker withdraw with secret", "Taker withdraw with secret"]) ∧
    ((determineEscrowPhase imm now).phase = .PUBLIC_WITHDRAWAL →
      (determineEscrowPhase imm now).allowedActions =
        ["Anyone withdraw with secret"]) ∧
    ((determineEscrowPhase imm now).phase = .PRIVATE_CANCELLATION →
      (determineEscrowPhase imm now).allowedActions =
        ["Maker cancel", "Anyone withdraw with secret"]) ∧
    ((determineEscrowPhase imm now).phase = .PUBLIC_CANCELLATION →
      (determineEscrowPhase imm now).allowedActions =
        ["Anyone cancel", "Anyone withdraw with secret"]) := by
  unfold determineEscrowPhase
  split_ifs <;> simp [escrowActionStrings]

/-- Witness for C1 at the order-literal schedule and `now = 5`
(the finality window). -/
theorem allowed_actions_match_phase_witness :
    (determineEscrowPhase (mkImm orderTimeLocks) 5).allowedActions =
      ["None - waiting for finality"] :=
  ((allowed_actions_match_phase (mkImm orderTimeLocks) 5 (by decide)).1
    (by decide)).1

/-- C3: for every schedule with ordered boundaries the phase function maps
each time window to its phase, and the concrete scenario
`{t0=60, t1=120, t2=300, t3=600}` at epoch 1000 gives FINALITY with
timeRemaining 60 at `now = 1000`, PRIVATE_WITHDRAWAL with timeRemaining 60
at `now = 1060`, and PUBLIC_CANCELLATION at `now = 1700`. -/
theorem phase_window_mapping (t0 t1 t2 t3 epoch now : Int)
    (h01 : t0 ≤ t1) (h12 : t1 ≤ t2) (h23 : t2 ≤ t3) :
    (now < epoch + t0 →
      (computePhase t0 t1 t2 t3 epoch now).phase = .FINALITY) ∧
    (epoch + t0 ≤ now → now < epoch + t1 →
      (computePhase t0 t1 t2 t3 epoch now).phase = .PRIVATE_WITHDRAWAL) ∧
    (epoch + t1 ≤ now → now < epoch + t2 →
      (computePhase t0 t1 t2 t3 epoch now).phase = .PUBLIC_WITHDRAWAL) ∧
    (epoch + t2 ≤ now → now < epoch + t3 →
      (computePhase t0 t1 t2 t3 epoch now).phase = .PRIVATE_CANCELLATION) ∧
    (epoch + t3 ≤ now →
      (computePhase t0 t1 t2 t3 epoch now).phase = .PUBLIC_CANCELLATION) ∧
    (computePhase 60 120 300 600 1000 1000).phase = .FINALITY ∧
    (computePhase 60 120 300 600 1000 1000).timeRemaining = .num 60 ∧
    (computePhase 60 120 300 600 1000 1060).phase = .PRIVATE_WITHDRAWAL ∧
    (computePhase 60 120 300 600 1000 1060).timeRemaining = .num 60 ∧
    (computePhase 60 120 300 600 1000 1700).phase = .PUBLIC_CANCELLATION := by
  refine ⟨?_, ?_, ?_, ?_, ?_, by decide, by decide, by decide, by decide,
    by decide⟩ <;>
  · intros
    dsimp only [computePhase, determineEscrowPhase, mkImm, mkTimelocks]
    split_ifs <;> first | rfl | (exfalso; omega)

/-- Witness for C3 at the concrete schedule, inside the
private-cancellation window. -/
theorem phase_window_mapping_witness :
    (computePhase 60 120 300 600 1000 1500).phase = .PRIVATE_CANCELLATION :=
  (phase_window_mapping 60 120 300 600 1000 1500 (by decide) (by decide)
    (by decide)).2.2.2.1 (by decide) (by decide)

/-- C4 counterexample: with the merely non-strict ordering the claim allows,
coincident boundaries `t1 = t2` make the time `epoch + t1` fall into
PRIVATE_CANCELLATION, not PUBLIC_WITHDRAWAL. -/
theorem boundary_coincident_counterexample :
    ((60 : Int) ≤ 120 ∧ (120 : Int) ≤ 120 ∧ (120 : Int) ≤ 600) ∧
    (computePhase 60 120 120 600 1000 (1000 + 120)).phase =
      .PRIVATE_CANCELLATION ∧
    ¬ (computePhase 60 120 120 600 1000 (1000 + 120)).phase =
      .PUBLIC_WITHDRAWAL := by
  decide

/-- C4 as amended: boundaries are inclusive-lower on the new phase — a time
exactly equal to an absolute boundary belongs to the phase that boundary
starts, provided that boundary is strictly below the next one; the last
boundary needs no side condition.  (When adjacent boundaries coincide the
latest phase starting at that time wins, per the counterexample.) -/
theorem boundary_starts_new_phase (t0 t1 t2 t3 epoch : Int)
    (h01 : t0 ≤ t1) (h12 : t1 ≤ t2) (h23 : t2 ≤ t3) :
    (t0 < t1 →
      (computePhase t0 t1 t2 t3 epoch (epoch + t0)).phase =
        .PRIVATE_WITHDRAWAL) ∧
    (t1 < t2 →
      (computePhase t0 t1 t2 t3 epoch (epoch + t1)).phase =
        .PUBLIC_WITHDRAWAL) ∧
    (t2 < t3 →
      (computePhase t0 t1 t2 t3 epoch (epoch + t2)).phase =
        .PRIVATE_CANCELLATION) ∧
    (computePhase t0 t1 t2 t3 epoch (epoch + t3)).phase =
      .PUBLIC_CANCELLATION := by
  refine ⟨?_, ?_, ?_, ?_⟩ <;>
  · intros
    dsimp only [computePhase, determineEscrowPhase, mkImm, mkTimelocks]
    split_ifs <;> first | rfl | (exfalso; omega)

/-- Witness for the amended C4 at the spec's concrete schedule: the time
exactly `epoch + t1` yields PUBLIC_WITHDRAWAL. -/
theorem boundary_starts_new_phase_witness :
    (computePhase 60 120 300 600 1000 (1000 + 120)).phase =
      .PUBLIC_WITHDRAWAL :=
  (boundary_starts_new_phase 60 120 300 600 1000 (by decide) (by decide)
    (by decide)).2.1 (by decide)

/-- C5: for a fixed ordered schedule the phase index never moves backward
as the current time increases. -/
theorem phase_monotone (imm : EscrowImmutables) (now1 now2 : Int)
    (hord : srcOrdered imm.timelocks) (h : now1 ≤ now2) :
    ((determineEscrowPhase imm now1).phase).idx ≤
      ((determineEscrowPhase imm now2).phase).idx := by
  obtain ⟨h01, h12, h23⟩ := hord
  unfold determineEscrowPhase
  split_ifs <;> simp [Phase.idx] <;> omega

/-- Witness for C5 on the deployment schedule, from the finality window to
past the last boundary. -/
theorem phase_monotone_witness :
    ((determineEscrowPhase (mkImm (deploymentTimelocks 1000)) 1000).phase).idx ≤
      ((determineEscrowPhase (mkImm (deploymentTimelocks 1000)) 1700).phase).idx :=
  phase_monotone (mkImm (deploymentTimelocks 1000)) 1000 1700 (by decide)
    (by decide)

/-- C6: past the last boundary of an ordered schedule the phase is
PUBLIC_CANCELLATION with the unbounded time-remaining sentinel and no next
boundary; for all inputs whatsoever the returned phase is never EXPIRED and
never DEPLOYED, and EXPIRED appears as next phase exactly for the terminal
phase. -/
theorem terminal_phase_properties (imm : EscrowImmutables) (now : Int) :
    (srcOrdered imm.timelocks →
      imm.timelocks.srcPublicCancellation ≤ now →
      (determineEscrowPhase imm now).phase = .PUBLIC_CANCELLATION ∧
      (determineEscrowPhase imm now).timeRemaining = .str "No time limit" ∧
      (determineEscrowPhase imm now).nextPhaseTime = none) ∧
    (determineEscrowPhase imm now).phase ≠ .EXPIRED ∧
    (determineEscrowPhase imm now).phase ≠ .DEPLOYED ∧
    ((determineEscrowPhase imm now).nextPhase = .EXPIRED ↔
      (determineEscrowPhase imm now).phase = .PUBLIC_CANCELLATION) := by
  constructor
  · rintro ⟨h01, h12, h23⟩ hge
    unfold determineEscrowPhase
    split_ifs <;> first | exact ⟨rfl, rfl, rfl⟩ | (exfalso; omega)
  · unfold determineEscrowPhase
    split_ifs <;> simp

/-- Witness for C6 on the deployment schedule, 100 seconds past the last
boundary. -/
theorem terminal_phase_properties_witness :
    (determineEscrowPhase (mkImm (deploymentTimelocks 1000)) 1700).phase =
      .PUBLIC_CANCELLATION :=
  ((terminal_phase_properties (mkImm (deploymentTimelocks 1000)) 1700).1
    (by decide) (by decide)).1

/-- C2 (evaluating the verification step at the failing inputs): with
funding completed and the contract balance one wei short of
`amount + safetyDeposit` — or five wei above it — Step 4 still sets
`verificationStatus` to verified; the balance comparison is only logged
(and, being a greater-or-equal test, never flags over-funding at all).
No StateMismatch failure exists in the script. -/
theorem verification_accepts_wrong_funding :
    totalFundingAmount sampleImmutables = 3000000000000000 ∧
    verifyDeployment "completed" (totalFundingAmount sampleImmutables)
      (.ok 1800) (.ok 2999999999999999) (.ok "0xfactory") =
      { verificationStatus := "verified", verificationError := none
        balanceAtLeastExpected := some false } ∧
    verifyDeployment "completed" (totalFundingAmount sampleImmutables)
      (.ok 1800) (.ok 3000000000000005) (.ok "0xfactory") =
      { verificationStatus := "verified", verificationError := none
        balanceAtLeastExpected := some true } := by
  refine ⟨rfl, ?_, ?_⟩ <;> decide

/-- C7 counterexample: a timelocks object whose boundaries are completely
out of order is constructed without any rejection and flows straight into
the phase computation, which happily returns a phase for it. -/
theorem invalid_schedule_reaches_phase_engine :
    ¬ srcOrdered (mkTimelocks 122 121 120 10 0 0 0) ∧
    (determineEscrowPhase (mkImm (mkTimelocks 122 121 120 10 0 0 0)) 50).phase
      = .FINALITY := by
  decide

/-- C7 as amended: schedule construction is a plain record fill that runs no
validation and can never reject, while the concrete schedules the scripts
actually build do satisfy the ordering invariant (and the order literal is
non-negative). -/
theorem schedule_construction_runs_no_validation :
    (∀ sw spw sc spc dw dpw dc : Int,
      mkTimelocks sw spw sc spc dw dpw dc =
        { srcWithdrawal := sw, srcPublicWithdrawal := spw
          srcCancellation := sc, srcPublicCancellation := spc
          dstWithdrawal := dw, dstPublicWithdrawal := dpw
          dstCancellation := dc }) ∧
    srcOrdered orderTimeLocks ∧
    (0 : Int) ≤ orderTimeLocks.srcWithdrawal ∧
    (∀ ct : Int, srcOrdered (deploymentTimelocks ct)) := by
  refine ⟨fun _ _ _ _ _ _ _ => rfl, by decide, by decide, fun ct => ?_⟩
  dsimp only [deploymentTimelocks, mkTimelocks, srcOrdered]
  omega

/-- C8 counterexample: a first funding transaction that is mined but
reverted goes straight to failed with a single generic message and no
retry at all; and a retry that is mined but reverted leaves only the fixed
string, not the two error messages. -/
theorem funding_failure_paths_counterexample :
    fundEscrow .reverted .success =
      { fundingStatus := "failed"
        fundingError := some "Transaction reverted"
        attempts := 1, gasLimits := [1000000] } ∧
    fundEscrow (.threw "insufficient funds for gas") .reverted =
      { fundingStatus := "failed"
        fundingError := some "Both funding attempts failed"
        attempts := 2, gasLimits := [1000000, 2000000] } := by
  exact ⟨rfl, rfl⟩

/-- C8 as amended: the retry with the raised gas limit (2000000 against the
first attempt's 1000000) happens exactly when the first send throws; both
error messages are carried only when the retry also throws; a retry that
succeeds yields completed (with the stale first error left in place); a
mined-but-reverted retry fails with a generic message; and a
mined-but-reverted first attempt fails immediately with no retry. -/
theorem funding_retry_behaviour (m1 m2 : String) :
    (∀ r, fundEscrow .success r =
      { fundingStatus := "completed", fundingError := none
        attempts := 1, gasLimits := [1000000] }) ∧
    (∀ r, fundEscrow .reverted r =
      { fundingStatus := "failed"
        fundingError := some "Transaction reverted"
        attempts := 1, gasLimits := [1000000] }) ∧
    fundEscrow (.threw m1) .success =
      { fundingStatus := "completed", fundingError := some m1
        attempts := 2, gasLimits := [1000000, 2000000] } ∧
    fundEscrow (.threw m1) .reverted =
      { fundingStatus := "failed"
        fundingError := some "Both funding attempts failed"
        attempts := 2, gasLimits := [1000000, 2000000] } ∧
    fundEscrow (.threw m1) (.threw m2) =
      { fundingStatus := "failed"
        fundingError := some ("Both attempts failed: " ++ m1 ++ ", " ++ m2)
        attempts := 2, gasLimits := [1000000, 2000000] } :=
  ⟨fun _ => rfl, fun _ => rfl, rfl, rfl, rfl⟩

/-- C9 counterexample: an escrow whose history holds a withdrawal and a
later cancellation gets both events returned side by side in an ordinary
result — the result type has no conflict marker, so no
TerminalStateConflict is ever signalled. -/
theorem contradictory_terminal_events_coexist :
    queryContractEvents
      [{ secret := "0xsecret", blockNumber := 5, transactionHash := "0xwtx" }]
      [{ blockNumber := 7, transactionHash := "0xctx" }]
      []
      (fun b => 1000 + b) =
      { withdrawals := [{ secret := "0xsecret", blockNumber := 5, timestamp := 1005, transactionHash := "0xwtx" }],
        cancellations := [{ blockNumber := 7, timestamp := 1007, transactionHash := "0xctx" }],
        rescues := [],
        totalEvents := 2 } := by
  rfl

/-- C9 as amended: event querying merely decorates and regroups the chain's
event logs — every event of every kind is preserved in the result and the
total is their sum; nothing is overwritten and no conflict between
withdrawal and cancellation events is detected. -/
theorem events_preserved_without_conflict (ws : List RawWithdrawal)
    (cs : List RawCancellation) (rs : List RawRescue)
    (blockTimestamp : Int → Int) :
    (queryContractEvents ws cs rs blockTimestamp).withdrawals.length =
      ws.length ∧
    (queryContractEvents ws cs rs blockTimestamp).cancellations.length =
      cs.length ∧
    (queryContractEvents ws cs rs blockTimestamp).rescues.length =
      rs.length ∧
    (queryContractEvents ws cs rs blockTimestamp).totalEvents =
      ws.length + cs.length + rs.length := by
  simp [queryContractEvents]

/-- C10: for every non-negative integer number of seconds the four
components computed by `formatTimeRemaining` recompose to the input with
hours below 24 and minutes and seconds below 60, and every string input is
returned unchanged. -/
theorem formatTimeRemaining_correct :
    (∀ n : Nat,
      (timeComponents (n : Int)).1 * 86400 +
        (timeComponents (n : Int)).2.1 * 3600 +
        (timeComponents (n : Int)).2.2.1 * 60 +
        (timeComponents (n : Int)).2.2.2 = (n : Int) ∧
      (timeComponents (n : Int)).2.1 < 24 ∧
      (timeComponents (n : Int)).2.2.1 < 60 ∧
      (timeComponents (n : Int)).2.2.2 < 60) ∧
    (∀ s : String, formatTimeRemaining (.str s) = s) := by
  constructor
  · intro n
    have h0 : (0 : Int) ≤ (n : Int) := Int.natCast_nonneg n
    simp only [timeComponents]
    rw [Int.tmod_eq_emod h0 (by norm_num), Int.tmod_eq_emod h0 (by norm_num),
      Int.tmod_eq_emod h0 (by norm_num), Int.fdiv_eq_ediv _ (by norm_num),
      Int.fdiv_eq_ediv _ (by norm_num), Int.fdiv_eq_ediv _ (by norm_num)]
    omega
  · intro s
    rfl
